import Mathlib

/-!
# TrackIt — shallow embedding and verification

A shallow embedding of the TrackIt backend (Express/Mongoose) and of the
browser client, faithful to the JavaScript sources:

* `backend/models/Transaction.js` — the transaction schema and its validation;
* `backend/controllers/transactionController.js` — CRUD, filtered/paginated
  listing, statistics, bulk delete;
* `backend/routes/transactionRoutes.js` — route registration order and
  Express-style dispatch;
* `backend/controllers/authController.js` — token generation, refresh,
  forgot-password;
* `frontend/src/utils/api.js` — the 401 refresh-and-retry client logic.

Conventions of the embedding: document ids and user ids are `String`;
amounts are `ℚ` (idealising JS numbers); timestamps are `Int`
(milliseconds).  The MongoDB store is a `List Transaction`; a Mongo query
becomes a predicate over that list.  Calendar arithmetic of the JS `Date`
class (start of day/week/month/year, year/month extraction) is abstracted
as a `DateModel` parameter: no claim below depends on the calendar, only on
how the controller selects the window start.  External primitives
(the SHA-256 hash, the JWT signature) are likewise parameters of the
operations that use them.
-/

namespace TrackIt

/-! ## Case-insensitive substring matching

Models the `$regex: s, $options: 'i'` filters of the controller (ie the
regex is used as a plain substring pattern), over ASCII code points. -/

/-- ASCII lowercasing of one code point, the model of case folding done by
the `i` regex option. -/
def lowerCode (n : Nat) : Nat := if 65 ≤ n ∧ n ≤ 90 then n + 32 else n

/-- Case-folded code points of a string. -/
def foldedCodes (s : String) : List Nat := s.data.map (fun c => lowerCode c.toNat)

/-- Raw code points of a string (case-sensitive comparisons). -/
def rawCodes (s : String) : List Nat := s.data.map (fun c => c.toNat)

/-- Whether `n` occurs as a contiguous sublist of `h`. -/
def listInfix (n h : List Nat) : Bool :=
  (List.range (h.length + 1)).any (fun i => n.isPrefixOf (h.drop i))

/-- Case-insensitive substring test: the model of `{$regex: needle, $options:'i'}`
matched against `hay`. -/
def iContains (needle hay : String) : Bool := listInfix (foldedCodes needle) (foldedCodes hay)

/-! ## Data model — `models/Transaction.js` -/

/-- One element of the `attachments` array of the transaction schema. -/
structure Attachment where
  filename : String
  originalName : String
  mimeType : String
  size : Nat
  url : String
deriving DecidableEq, Repr

/-- A persisted transaction document (fields of `transactionSchema`).
`id` is the Mongo `_id`; `description` is optional in the schema. -/
structure Transaction where
  id : String
  userId : String
  type : String
  amount : ℚ
  category : String
  description : Option String
  date : Int
  tags : List String
  isRecurring : Bool
  recurringInterval : String
  attachments : List Attachment
deriving DecidableEq, Repr

/-- The document store: the set of persisted transactions. -/
abbrev Store := List Transaction

/-- The `enum` of `recurringInterval` in the schema. -/
def recurringEnum : List String := ["daily", "weekly", "monthly", "yearly"]

/-- The request body destructured by `createTransaction` and
`updateTransaction`: each field may be absent (`undefined`). -/
structure TxBody where
  type : Option String
  amount : Option ℚ
  category : Option String
  description : Option String
  tags : Option (List String)
  isRecurring : Option Bool
  recurringInterval : Option String
  date : Option Int
deriving DecidableEq, Repr

/-- Schema validation of the `type` path: `enum: ['income', 'expense']`. -/
def validTypePath (ty : String) : Bool := ty == "income" || ty == "expense"

/-- Schema validation of the `amount` path: `min: 0.01` together with the
custom validator `v > 0`. -/
def validAmountPath (a : ℚ) : Bool := decide ((1 : ℚ)/100 ≤ a) && decide (0 < a)

/-- Schema validation of the `category` path: `required` (a required string
path rejects the empty string) and `maxlength: 50`. -/
def validCategoryPath (c : String) : Bool := !(c == "") && decide (c.length ≤ 50)

/-- Schema validation of the paths supplied by a body, as run by
`runValidators` / `save` on those paths (`description` max 200, each tag
max 20, `recurringInterval` in its enum). -/
def validSuppliedPaths (b : TxBody) : Bool :=
  (match b.type with | some ty => validTypePath ty | none => true)
  && (match b.amount with | some a => validAmountPath a | none => true)
  && (match b.category with | some c => validCategoryPath c | none => true)
  && (match b.description with | some d => decide (d.length ≤ 200) | none => true)
  && (match b.tags with | some tl => tl.all (fun tg => decide (tg.length ≤ 20)) | none => true)
  && (match b.recurringInterval with | some r => recurringEnum.contains r | none => true)

/-- Full schema validation of a document built from a create body:
`userId`, `type`, `amount`, `category` are `required`; the rest as in
`validSuppliedPaths`. -/
def schemaValidCreate (b : TxBody) : Bool :=
  b.type.isSome && b.amount.isSome && b.category.isSome && validSuppliedPaths b

/-- The document constructed by `new Transaction({...})` in
`createTransaction`: the body fields, owner `req.userId`, and the schema
defaults (`date: date || new Date()`, `isRecurring: false`,
`recurringInterval: 'monthly'`, empty `tags`/`attachments`). -/
def mkTransaction (newId uid : String) (now : Int) (b : TxBody) : Transaction :=
  { id := newId
    userId := uid
    type := b.type.getD ""
    amount := b.amount.getD 0
    category := b.category.getD ""
    description := b.description
    date := b.date.getD now
    tags := b.tags.getD []
    isRecurring := b.isRecurring.getD false
    recurringInterval := b.recurringInterval.getD "monthly"
    attachments := [] }

/-! ## Responses -/

/-- Response of the single-transaction handlers (create, get by id, update,
delete): HTTP status, the `success` flag, the `message`, and the returned
document when there is one. -/
structure TxResponse where
  status : Nat
  success : Bool
  message : String
  transaction : Option Transaction
deriving DecidableEq, Repr

/-- The `pagination` object of the list response. -/
structure Pagination where
  currentPage : Nat
  totalPages : Nat
  totalItems : Nat
  itemsPerPage : Nat
  hasNextPage : Bool
  hasPrevPage : Bool
deriving DecidableEq, Repr

/-- Response of `getTransactions`. -/
structure ListResponse where
  success : Bool
  transactions : List Transaction
  pagination : Pagination
deriving DecidableEq, Repr

/-- Response of `bulkDeleteTransactions`; `deletedCount` is
`result.deletedCount` of Mongo `deleteMany`, interpolated into the message. -/
structure BulkResponse where
  status : Nat
  success : Bool
  message : String
  deletedCount : Nat
deriving DecidableEq, Repr

/-! ## getTransactions — filter, sort, paginate -/

/-- The query parameters destructured by `getTransactions`; `none` is an
absent (or JS-falsy) parameter. -/
structure Query where
  page : Option Nat
  limit : Option Nat
  type : Option String
  category : Option String
  startDate : Option Int
  endDate : Option Int
  minAmount : Option ℚ
  maxAmount : Option ℚ
  search : Option String
  sortBy : Option String
  sortOrder : Option String
deriving DecidableEq, Repr

/-- The conjunctive Mongo filter built by `getTransactions`: owner scope,
then each optional condition; `search` is ORed across description,
category and tags. A missing `description` field matches no regex. -/
def matchesFilter (uid : String) (q : Query) (t : Transaction) : Bool :=
  t.userId == uid
  && (match q.type with | none => true | some ty => t.type == ty)
  && (match q.category with | none => true | some c => iContains c t.category)
  && (match q.startDate with | none => true | some s => decide (s ≤ t.date))
  && (match q.endDate with | none => true | some e => decide (t.date ≤ e))
  && (match q.minAmount with | none => true | some m => decide (m ≤ t.amount))
  && (match q.maxAmount with | none => true | some m => decide (t.amount ≤ m))
  && (match q.search with
      | none => true
      | some s =>
        (match t.description with | some d => iContains s d | none => false)
        || iContains s t.category
        || t.tags.any (fun tg => iContains s tg))

/-- A BSON value as used for sorting, with raw code points for strings. -/
inductive SortVal where
  | vNull
  | vNum (q : ℚ)
  | vStr (cs : List Nat)
  | vBool (b : Bool)
  | vDate (t : Int)
deriving DecidableEq, Repr

/-- Lexicographic comparison of code point lists. -/
def lexLe : List Nat → List Nat → Bool
  | [], _ => true
  | _ :: _, [] => false
  | a :: as, b :: bs => if a < b then true else if b < a then false else lexLe as bs

/-- BSON cross-type rank (null < numbers < strings < booleans < dates),
a model of the Mongo sort order across types. -/
def svRank : SortVal → Nat
  | .vNull => 0
  | .vNum _ => 1
  | .vStr _ => 2
  | .vBool _ => 3
  | .vDate _ => 4

/-- The sort order on BSON values. -/
def svLe (a b : SortVal) : Bool :=
  match a, b with
  | .vNum x, .vNum y => decide (x ≤ y)
  | .vStr x, .vStr y => lexLe x y
  | .vBool x, .vBool y => !x || y
  | .vDate x, .vDate y => decide (x ≤ y)
  | _, _ => decide (svRank a ≤ svRank b)

/-- The value of a document at a sort field name (`sort[sortBy]`); an
unknown or absent field sorts as null. -/
def fieldValue (t : Transaction) : String → SortVal
  | "date" => .vDate t.date
  | "amount" => .vNum t.amount
  | "type" => .vStr (rawCodes t.type)
  | "category" => .vStr (rawCodes t.category)
  | "description" => (match t.description with | some d => .vStr (rawCodes d) | none => .vNull)
  | "isRecurring" => .vBool t.isRecurring
  | "recurringInterval" => .vStr (rawCodes t.recurringInterval)
  | _ => .vNull

/-- The sort comparator: `sort[sortBy] = sortOrder === 'desc' ? -1 : 1`. -/
def sortLe (sortBy sortOrder : String) (a b : Transaction) : Bool :=
  if sortOrder == "desc" then svLe (fieldValue b sortBy) (fieldValue a sortBy)
  else svLe (fieldValue a sortBy) (fieldValue b sortBy)

/-- The filtered, sorted transaction list of a `getTransactions` request
(before `skip`/`limit`). -/
def filteredSorted (uid : String) (q : Query) (store : Store) : List Transaction :=
  List.insertionSort
    (fun a b => sortLe (q.sortBy.getD "date") (q.sortOrder.getD "desc") a b = true)
    (store.filter (matchesFilter uid q))

/-- `GET /api/transactions` (`getTransactions`): build the filter, sort,
`skip = (page-1)*limit`, take `limit`, and report the pagination info
(`totalPages = Math.ceil(total/limit)`, next/prev flags).  The
`populate('userId', ...)` projection of the response is not modelled. -/
def getTransactions (uid : String) (q : Query) (store : Store) : ListResponse :=
  let page := q.page.getD 1
  let limit := q.limit.getD 10
  let l := filteredSorted uid q store
  let total := l.length
  let totalPages := (total + limit - 1) / limit
  { success := true
    transactions := (l.drop ((page - 1) * limit)).take limit
    pagination :=
      { currentPage := page
        totalPages := totalPages
        totalItems := total
        itemsPerPage := limit
        hasNextPage := decide (page < totalPages)
        hasPrevPage := decide (1 < page) } }

/-! ## Single-document CRUD -/

/-- The owner-scoped id lookup used by get-by-id, update and delete:
`{ _id: id, userId: req.userId }`. -/
def ownedBy (uid id : String) (t : Transaction) : Bool := t.id == id && t.userId == uid

/-- `GET /api/transactions/:id` (`getTransactionById`): `findOne` scoped by
id and owner, 404 when absent. -/
def getTransactionById (uid id : String) (store : Store) : TxResponse :=
  match store.find? (ownedBy uid id) with
  | none => { status := 404, success := false, message := "Transaction not found", transaction := none }
  | some t => { status := 200, success := true, message := "", transaction := some t }

/-- Replace the first element satisfying `p` by its image under `f`
(Mongo updates/deletes by id touch a single document). -/
def updateFirst {α : Type} (p : α → Bool) (f : α → α) : List α → List α
  | [] => []
  | a :: l => if p a then f a :: l else a :: updateFirst p f l

/-- The `$set` document built by `updateTransaction`: exactly the supplied
body fields (`if (x !== undefined) updateData.x = x`), applied to a
document. `userId` and `_id` are never part of `updateData`. -/
def applyUpdate (b : TxBody) (t : Transaction) : Transaction :=
  { t with
    type := b.type.getD t.type
    amount := b.amount.getD t.amount
    category := b.category.getD t.category
    description := (match b.description with | some d => some d | none => t.description)
    tags := b.tags.getD t.tags
    isRecurring := b.isRecurring.getD t.isRecurring
    recurringInterval := b.recurringInterval.getD t.recurringInterval
    date := b.date.getD t.date }

/-- `PUT /api/transactions/:id` (`updateTransaction`): `findOneAndUpdate`
scoped by id and owner with `runValidators: true` (validators run on the
supplied paths; a validation failure is caught and surfaces as 500),
404 when no owned match exists. -/
def updateTransaction (uid id : String) (b : TxBody) (store : Store) : TxResponse × Store :=
  match store.find? (ownedBy uid id) with
  | none => ({ status := 404, success := false, message := "Transaction not found", transaction := none }, store)
  | some t =>
    if validSuppliedPaths b then
      ({ status := 200, success := true, message := "Transaction updated successfully",
         transaction := some (applyUpdate b t) },
       updateFirst (ownedBy uid id) (applyUpdate b) store)
    else
      ({ status := 500, success := false, message := "Error updating transaction", transaction := none }, store)

/-- `DELETE /api/transactions/:id` (`deleteTransaction`): `findOneAndDelete`
scoped by id and owner, 404 when no owned match exists. -/
def deleteTransaction (uid id : String) (store : Store) : TxResponse × Store :=
  match store.find? (ownedBy uid id) with
  | none => ({ status := 404, success := false, message := "Transaction not found", transaction := none }, store)
  | some t =>
    ({ status := 200, success := true, message := "Transaction deleted successfully", transaction := some t },
     store.eraseP (ownedBy uid id))

/-- `POST /api/transactions` (`createTransaction`): build the document with
owner `req.userId` and save it; a schema validation failure on save is
caught by the controller and surfaces as 500. -/
def createTransaction (uid newId : String) (now : Int) (b : TxBody) (store : Store) : TxResponse × Store :=
  if schemaValidCreate b then
    let t := mkTransaction newId uid now b
    ({ status := 201, success := true, message := "Transaction created successfully", transaction := some t },
     store ++ [t])
  else
    ({ status := 500, success := false, message := "Error creating transaction", transaction := none }, store)

/-- Modelled from the spec: the repository references
`middleware/validationMiddleware.js` (`validateTransaction` together with
`handleValidationErrors`) from its routes, but that file is not under the
sources provided.  Per the spec, amount must be strictly greater than 0 or
the request fails with a ValidationError (400) before any mutation.  The
function returns the list of validation error messages for a transaction
body. -/
def validateTransactionMW (b : TxBody) : List String :=
  match b.amount with
  | some a => if decide (0 < a) then [] else ["Amount must be greater than 0"]
  | none => []

/-- The `POST /api/transactions` pipeline: the validation middleware
(modelled from the spec) followed by `createTransaction`. -/
def createTransactionEndpoint (uid newId : String) (now : Int) (b : TxBody) (store : Store) :
    TxResponse × Store :=
  match validateTransactionMW b with
  | [] => createTransaction uid newId now b store
  | _ :: _ =>
    ({ status := 400, success := false, message := "Validation failed", transaction := none }, store)

/-- `DELETE` with body `{transactionIds}` (`bulkDeleteTransactions`):
400 unless the body field is an array (`some`) and non-empty, else
`deleteMany({_id: {$in: ids}, userId: req.userId})` and the deleted count
interpolated into the message. -/
def bulkDeleteTransactions (uid : String) (transactionIds : Option (List String)) (store : Store) :
    BulkResponse × Store :=
  match transactionIds with
  | none =>
    ({ status := 400, success := false, message := "Transaction IDs array is required", deletedCount := 0 }, store)
  | some ids =>
    if ids.isEmpty then
      ({ status := 400, success := false, message := "Transaction IDs array is required", deletedCount := 0 }, store)
    else
      let doomed := fun t => ids.contains t.id && t.userId == uid
      let n := (store.filter doomed).length
      ({ status := 200, success := true,
         message := Nat.repr n ++ " transactions deleted successfully", deletedCount := n },
       store.filter (fun t => !doomed t))

/-! ## Statistics — `getTransactionStats`, `getTransactionCategories` -/

/-- The JS `Date` calendar operations used by `getTransactionStats`,
abstracted (external library; no claim depends on the calendar itself). -/
structure DateModel where
  startOfToday : Int → Int
  startOfWeek : Int → Int
  startOfMonth : Int → Int
  startOfYear : Int → Int
  oneYearBefore : Int → Int
  yearOf : Int → Int
  monthOf : Int → Int

/-- The window start computed by `getTransactionStats`: no date filter for
`'all'`; otherwise a `switch` on the period mutating a fresh
`new Date()` — a period matching no case leaves it at the current instant.
The two `new Date()` calls of the controller are modelled as the same
instant `now`. -/
def periodStart (dm : DateModel) (period : String) (now : Int) : Option Int :=
  if period == "all" then none
  else some (
    if period == "today" then dm.startOfToday now
    else if period == "week" then dm.startOfWeek now
    else if period == "month" then dm.startOfMonth now
    else if period == "year" then dm.startOfYear now
    else now)

/-- The documents matched by the two `$match` stages of the overall and
category pipelines: owner scope plus `date: {$gte: startOfPeriod}`. -/
def statsMatch (dm : DateModel) (period : String) (now : Int) (uid : String) (store : Store) :
    List Transaction :=
  store.filter (fun t =>
    t.userId == uid
    && (match periodStart dm period now with | none => true | some s => decide (s ≤ t.date)))

/-- The `stats` object of the response. -/
structure StatsRec where
  totalIncome : ℚ
  totalExpenses : ℚ
  totalTransactions : Nat
  avgTransactionAmount : ℚ
  minAmount : ℚ
  maxAmount : ℚ
  netAmount : ℚ
deriving DecidableEq, Repr

/-- The zeroed statistics returned for an empty result set. -/
def zeroStats : StatsRec :=
  { totalIncome := 0, totalExpenses := 0, totalTransactions := 0,
    avgTransactionAmount := 0, minAmount := 0, maxAmount := 0, netAmount := 0 }

/-- `$sum: {$cond: [{$eq: ['$type', ty]}, '$amount', 0]}` over a document list. -/
def condAmountSum (ty : String) (l : List Transaction) : ℚ :=
  (l.map (fun t => if t.type == ty then t.amount else 0)).sum

/-- One row of the category breakdown (`$group` by `$category`). -/
structure CategoryStat where
  id : String
  total : ℚ
  count : Nat
  avgAmount : ℚ
deriving DecidableEq, Repr

/-- Accumulate one document into the running `$group` by category. -/
def addCat : List (String × ℚ × Nat) → Transaction → List (String × ℚ × Nat)
  | [], t => [(t.category, t.amount, 1)]
  | (c, s, n) :: rest, t =>
    if c == t.category then (c, s + t.amount, n + 1) :: rest
    else (c, s, n) :: addCat rest t

/-- The category pipeline: `$group` by category (sum, count, avg), `$sort`
by total descending, `$limit: 10`. -/
def categoryStatsOf (l : List Transaction) : List CategoryStat :=
  let rows := (l.foldl addCat []).map
    (fun g => { id := g.1, total := g.2.1, count := g.2.2, avgAmount := g.2.1 / (g.2.2 : ℚ) })
  (List.insertionSort (fun a b : CategoryStat => svLe (.vNum b.total) (.vNum a.total) = true) rows).take 10

/-- One row of the trailing 12-month breakdown (`$group` by year+month). -/
structure MonthlyStat where
  year : Int
  month : Int
  income : ℚ
  expenses : ℚ
deriving DecidableEq, Repr

/-- Accumulate one year/month/income/expense quadruple into the running
`$group` by year+month. -/
def addMonthly (y m : Int) (inc ex : ℚ) : List MonthlyStat → List MonthlyStat
  | [] => [{ year := y, month := m, income := inc, expenses := ex }]
  | g :: rest =>
    if g.year == y && g.month == m then
      { g with income := g.income + inc, expenses := g.expenses + ex } :: rest
    else g :: addMonthly y m inc ex rest

/-- Ascending sort on `_id.year`, then `_id.month`. -/
def monthLe (a b : MonthlyStat) : Bool :=
  if a.year == b.year then decide (a.month ≤ b.month) else decide (a.year ≤ b.year)

/-- The monthly pipeline: owner scope, `date` within the last year, `$group`
by year+month with conditional income/expense sums, ascending sort. -/
def monthlyStatsOf (dm : DateModel) (now : Int) (uid : String) (store : Store) : List MonthlyStat :=
  let docs := store.filter (fun t => t.userId == uid && decide (dm.oneYearBefore now ≤ t.date))
  let rows := docs.foldl
    (fun acc t => addMonthly (dm.yearOf t.date) (dm.monthOf t.date)
      (if t.type == "income" then t.amount else 0)
      (if t.type == "expense" then t.amount else 0) acc) []
  List.insertionSort (fun a b => monthLe a b = true) rows

/-- Response of `getTransactionStats`. -/
structure StatsResponse where
  success : Bool
  stats : StatsRec
  categoryStats : List CategoryStat
  monthlyStats : List MonthlyStat
deriving DecidableEq, Repr

/-- `GET /api/transactions/stats?period=` (`getTransactionStats`): when the
overall pipeline is empty the controller returns zeroed stats with empty
breakdowns; otherwise the grouped sums, count, average, min, max, and
`netAmount := totalIncome - totalExpenses` added on top of the group. -/
def getTransactionStats (dm : DateModel) (period : String) (now : Int) (uid : String)
    (store : Store) : StatsResponse :=
  match statsMatch dm period now uid store with
  | [] => { success := true, stats := zeroStats, categoryStats := [], monthlyStats := [] }
  | t :: ts =>
    let matched := t :: ts
    let amounts := matched.map (fun x => x.amount)
    let ti := condAmountSum "income" matched
    let te := condAmountSum "expense" matched
    { success := true
      stats :=
        { totalIncome := ti
          totalExpenses := te
          totalTransactions := matched.length
          avgTransactionAmount := amounts.sum / (matched.length : ℚ)
          minAmount := (ts.map (fun x => x.amount)).foldl min t.amount
          maxAmount := (ts.map (fun x => x.amount)).foldl max t.amount
          netAmount := ti - te }
      categoryStats := categoryStatsOf matched
      monthlyStats := monthlyStatsOf dm now uid store }

/-- `GET /api/transactions/categories` (`getTransactionCategories`): owner
scope, `$group` by category, `$sort` by count descending. -/
def getTransactionCategories (uid : String) (store : Store) : Bool × List CategoryStat :=
  let rows := ((store.filter (fun t => t.userId == uid)).foldl addCat []).map
    (fun g => { id := g.1, total := g.2.1, count := g.2.2, avgAmount := g.2.1 / (g.2.2 : ℚ) : CategoryStat })
  (true, List.insertionSort (fun a b : CategoryStat => decide (b.count ≤ a.count)) rows)

/-! ## Route dispatch — `routes/transactionRoutes.js`

Express matches registered routes in order; `/:id` is a single-segment
wildcard.  Paths are modelled pre-split into segments. -/

/-- One segment of a route pattern. -/
inductive Seg where
  | lit (s : String)
  | pathParam
deriving DecidableEq, Repr

/-- The handler a route points at. -/
inductive HandlerTag where
  | hCreate
  | hList
  | hStats
  | hCategories
  | hGetById
  | hUpdate
  | hDeleteOne
  | hBulkDelete
deriving DecidableEq, Repr

/-- Match a pattern against a path, collecting parameter values. -/
def matchSegs : List Seg → List String → Option (List String)
  | [], [] => some []
  | .lit s :: ps, x :: xs => if s == x then matchSegs ps xs else none
  | .pathParam :: ps, x :: xs => (matchSegs ps xs).map (fun r => x :: r)
  | _, _ => none

/-- The transaction routes in their registration order in
`transactionRoutes.js` (`DELETE /:id` is registered before `DELETE /bulk`). -/
def transactionRoutes : List (String × List Seg × HandlerTag) :=
  [ ("POST", [], .hCreate)
  , ("GET", [], .hList)
  , ("GET", [.lit "stats"], .hStats)
  , ("GET", [.lit "categories"], .hCategories)
  , ("GET", [.pathParam], .hGetById)
  , ("PUT", [.pathParam], .hUpdate)
  , ("DELETE", [.pathParam], .hDeleteOne)
  , ("DELETE", [.lit "bulk"], .hBulkDelete) ]

/-- Express dispatch: the first registered route whose method and pattern
match, with its captured parameters. -/
def dispatch (method : String) (path : List String) : Option (HandlerTag × List String) :=
  transactionRoutes.findSome? (fun r =>
    if r.1 == method then (matchSegs r.2.1 path).map (fun ps => (r.2.2, ps)) else none)

/-! ## Auth service — `controllers/authController.js`

The JWT library is modelled by carrying, in each token, the payload, the
secret it was signed with, and its absolute expiry; `jwt.verify` succeeds
exactly when the secrets agree and the token is unexpired. -/

/-- A signed token: payload fields, signing secret, absolute expiry. -/
structure Jwt where
  payloadId : String
  payloadType : Option String
  secret : String
  exp : Int
deriving DecidableEq, Repr

/-- The decoded payload returned by `jwt.verify`. -/
structure JwtPayload where
  id : String
  type : Option String
deriving DecidableEq, Repr

/-- The two verification failures distinguished by `refreshToken`. -/
inductive JwtError where
  | jsonWebTokenError
  | tokenExpiredError
deriving DecidableEq, Repr

/-- `jwt.verify(token, secret)`: signature, then expiry. -/
def jwtVerify (tok : Jwt) (secret : String) (now : Int) : Except JwtError JwtPayload :=
  if tok.secret ≠ secret then .error .jsonWebTokenError
  else if tok.exp ≤ now then .error .tokenExpiredError
  else .ok { id := tok.payloadId, type := tok.payloadType }

/-- The relevant environment configuration. -/
structure Env where
  jwtSecret : String
  jwtRefreshSecret : Option String
  jwtExpiresIn : Int
deriving DecidableEq, Repr

/-- The secret used to verify and to mint refresh tokens:
`process.env.JWT_REFRESH_SECRET || process.env.JWT_SECRET`. -/
def refreshKey (env : Env) : String := env.jwtRefreshSecret.getD env.jwtSecret

/-- `generateToken`: an access token signs `{ id: userId }` — no `type`
claim — with `JWT_SECRET`. -/
def generateToken (userId : String) (env : Env) (now : Int) : Jwt :=
  { payloadId := userId, payloadType := none, secret := env.jwtSecret, exp := now + env.jwtExpiresIn }

/-- `generateRefreshToken`: signs `{ id: userId, type: 'refresh' }` with the
refresh secret, expiring in 7 days. -/
def generateRefreshToken (userId : String) (env : Env) (now : Int) : Jwt :=
  { payloadId := userId, payloadType := some "refresh", secret := refreshKey env,
    exp := now + 7 * 24 * 60 * 60 * 1000 }

/-- A user document (`models/User.js`), restricted to the fields the
modelled operations read or write. -/
structure UserRec where
  id : String
  name : String
  email : String
  password : String
  isActive : Bool
  passwordResetToken : Option String
  passwordResetExpires : Option Int
deriving DecidableEq, Repr

/-- Response of `POST /api/auth/refresh-token`. -/
structure RefreshResponse where
  status : Nat
  success : Bool
  message : String
  token : Option Jwt
  refreshToken : Option Jwt
deriving DecidableEq, Repr

/-- `refreshToken` of the auth controller: 400 without a body token, verify
against the refresh secret (401 on bad signature or expiry), 401 unless the
payload carries `type: 'refresh'`, 401 unless the user exists and is
active, else a fresh token pair. -/
def refreshToken (env : Env) (users : List UserRec) (now : Int) (body : Option Jwt) :
    RefreshResponse :=
  match body with
  | none =>
    { status := 400, success := false, message := "Refresh token is required",
      token := none, refreshToken := none }
  | some tok =>
    match jwtVerify tok (refreshKey env) now with
    | .error .jsonWebTokenError =>
      { status := 401, success := false, message := "Invalid refresh token",
        token := none, refreshToken := none }
    | .error .tokenExpiredError =>
      { status := 401, success := false, message := "Refresh token expired",
        token := none, refreshToken := none }
    | .ok payload =>
      if payload.type ≠ some "refresh" then
        { status := 401, success := false, message := "Invalid token type",
          token := none, refreshToken := none }
      else
        match users.find? (fun u => u.id == payload.id) with
        | none =>
          { status := 401, success := false, message := "User not found or inactive",
            token := none, refreshToken := none }
        | some u =>
          if !u.isActive then
            { status := 401, success := false, message := "User not found or inactive",
              token := none, refreshToken := none }
          else
            { status := 200, success := true, message := "",
              token := some (generateToken u.id env now),
              refreshToken := some (generateRefreshToken u.id env now) }

/-- Response of `POST /api/auth/forgot-password`. -/
structure ForgotResponse where
  status : Nat
  success : Bool
  message : String
  resetToken : Option String
deriving DecidableEq, Repr

/-- The uniform success message of `forgotPassword`. -/
def forgotUniformMessage : String :=
  "If an account with that email exists, a password reset link has been sent"

/-- `forgotPassword`: look up an active user by email; if absent, answer the
uniform message without touching the store; if present, store
`sha256(resetToken)` (the hash primitive is the `hash` parameter, the raw
token the `resetTokenRaw` parameter) with a 10-minute expiry — and, only
when `NODE_ENV === 'development'`, answer a different message carrying the
raw token. -/
def forgotPassword (hash : String → String) (nodeEnv resetTokenRaw : String) (now : Int)
    (users : List UserRec) (email : String) : ForgotResponse × List UserRec :=
  match users.find? (fun u => u.email == email && u.isActive) with
  | none =>
    ({ status := 200, success := true, message := forgotUniformMessage, resetToken := none }, users)
  | some _ =>
    let users' := updateFirst (fun u => u.email == email && u.isActive)
      (fun u => { u with passwordResetToken := some (hash resetTokenRaw),
                         passwordResetExpires := some (now + 10 * 60 * 1000) }) users
    if nodeEnv == "development" then
      ({ status := 200, success := true, message := "Password reset link sent",
         resetToken := some resetTokenRaw }, users')
    else
      ({ status := 200, success := true, message := forgotUniformMessage, resetToken := none }, users')

/-! ## Browser client — `frontend/src/utils/api.js` -/

namespace Client

/-- An outgoing fetch request (url, method, JSON body). -/
structure JsRequest where
  url : String
  method : String
  body : Option String
deriving DecidableEq, Repr

/-- A fetch `Response` as the client reads it: `ok`, `status`, `url`, the
parsed token fields of its JSON data, and its body stream. -/
structure JsResponse where
  ok : Bool
  status : Nat
  url : String
  dataToken : Option String
  dataRefreshToken : Option String
  body : Option String
deriving DecidableEq, Repr

/-- Reading `response.method`: a fetch `Response` has no `method` property,
so the read yields `undefined`. -/
def responseMethod (_r : JsResponse) : Option String := none

/-- The three localStorage keys the client manages. -/
structure LocalStorage where
  token : Option String
  refreshToken : Option String
  user : Option String
deriving DecidableEq, Repr

/-- The cleared session state (`removeItem` on all three keys). -/
def clearedStorage : LocalStorage := { token := none, refreshToken := none, user := none }

/-- The network, as the function from requests to responses. -/
abbrev Server := JsRequest → JsResponse

/-- `refreshToken` of api.js: false without a stored refresh token; POST it
to the refresh endpoint; on `ok` store the new pair and answer true;
otherwise clear all session state, redirect to login, and answer false. -/
def refreshToken (server : Server) (st : LocalStorage) : Bool × LocalStorage :=
  match st.refreshToken with
  | none => (false, st)
  | some rt =>
    let resp := server { url := "http://localhost:5000/api/auth/refresh-token",
                         method := "POST", body := some rt }
    if resp.ok then
      (true, { st with token := resp.dataToken, refreshToken := resp.dataRefreshToken })
    else
      (false, clearedStorage)

/-- How a call to `handleResponse` ends. -/
inductive CallOutcome where
  | ok
  | apiError (status : Nat)
  | fuelOut
deriving DecidableEq, Repr

/-- The observable result of a client call: outcome, final session state,
number of refresh attempts made, and the replay requests sent. -/
structure CallResult where
  outcome : CallOutcome
  storage : LocalStorage
  refreshCount : Nat
  retries : List JsRequest
deriving DecidableEq, Repr

/-- `handleResponse` of api.js (with `retryRequest` inlined, and fuel for
the unbounded mutual recursion): on a non-ok 401 response, attempt a token
refresh; when it succeeds, re-fetch
`retryRequest(response.url, response.method, response.body)` — the method
read off the `Response` is `undefined`, so fetch defaults to GET, and the
body passed along is the (response) body — and handle that response the
same way; on a failed refresh or a non-401 error, throw. -/
def handleResponse (server : Server) (st : LocalStorage) (resp : JsResponse) :
    Nat → CallResult
  | 0 => { outcome := .fuelOut, storage := st, refreshCount := 0, retries := [] }
  | fuel + 1 =>
    if resp.ok then { outcome := .ok, storage := st, refreshCount := 0, retries := [] }
    else if resp.status == 401 then
      match refreshToken server st with
      | (true, st') =>
        let retry : JsRequest :=
          { url := resp.url, method := (responseMethod resp).getD "GET", body := resp.body }
        let res := handleResponse server st' (server retry) fuel
        { res with refreshCount := res.refreshCount + 1, retries := retry :: res.retries }
      | (false, st') =>
        { outcome := .apiError 401, storage := st', refreshCount := 1, retries := [] }
    else { outcome := .apiError resp.status, storage := st, refreshCount := 0, retries := [] }

/-- `apiCall`: fetch the request and hand the response to `handleResponse`. -/
def apiCall (server : Server) (st : LocalStorage) (req : JsRequest) (fuel : Nat) : CallResult :=
  handleResponse server st (server req) fuel

end Client

/-! ## Helper lemmas -/

/-- A concrete calendar instantiation for closed evaluations. -/
def dmTrivial : DateModel :=
  { startOfToday := id, startOfWeek := id, startOfMonth := id, startOfYear := id,
    oneYearBefore := id, yearOf := id, monthOf := id }

theorem condAmountSum_eq_filter (ty : String) (l : List Transaction) :
    condAmountSum ty l = ((l.filter (fun t => t.type == ty)).map (fun t => t.amount)).sum := by
  induction l with
  | nil => rfl
  | cons t ts ih =>
    simp only [condAmountSum] at ih
    simp only [condAmountSum, List.map_cons, List.sum_cons, List.filter_cons]
    by_cases h : (t.type == ty) = true
    · rw [if_pos h, if_pos h, List.map_cons, List.sum_cons, ih]
    · rw [if_neg h, if_neg h, ih, zero_add]

theorem length_updateFirst {α : Type} (p : α → Bool) (f : α → α) :
    ∀ l : List α, (updateFirst p f l).length = l.length := by
  intro l
  induction l with
  | nil => rfl
  | cons a l ih => by_cases h : p a <;> simp [updateFirst, h, ih]

theorem mem_updateFirst {α : Type} (p : α → Bool) (f : α → α) :
    ∀ (l : List α) (x : α), x ∈ updateFirst p f l →
      ∃ y ∈ l, x = y ∨ (p y = true ∧ x = f y) := by
  intro l
  induction l with
  | nil => intro x hx; simp [updateFirst] at hx
  | cons a l ih =>
    intro x hx
    by_cases h : p a
    · rw [updateFirst, if_pos h] at hx
      rcases List.mem_cons.mp hx with rfl | hx
      · exact ⟨a, List.mem_cons_self a l, Or.inr ⟨h, rfl⟩⟩
      · exact ⟨x, List.mem_cons_of_mem a hx, Or.inl rfl⟩
    · rw [updateFirst, if_neg h] at hx
      rcases List.mem_cons.mp hx with rfl | hx
      · exact ⟨x, List.mem_cons_self x l, Or.inl rfl⟩
      · rcases ih x hx with ⟨y, hy, hc⟩
        exact ⟨y, List.mem_cons_of_mem a hy, hc⟩

theorem mem_updateFirst_of_not {α : Type} (p : α → Bool) (f : α → α) (x : α)
    (hx : p x = false) :
    ∀ l : List α, x ∈ l → x ∈ updateFirst p f l := by
  intro l
  induction l with
  | nil => intro h; simp at h
  | cons a l ih =>
    intro h
    by_cases hp : p a
    · rw [updateFirst, if_pos hp]
      rcases List.mem_cons.mp h with rfl | h
      · rw [hp] at hx; cases hx
      · exact List.mem_cons_of_mem _ h
    · rw [updateFirst, if_neg hp]
      rcases List.mem_cons.mp h with rfl | h
      · exact List.mem_cons_self x _
      · exact List.mem_cons_of_mem a (ih h)

theorem find?_updateFirst_mem {α : Type} (p : α → Bool) (f : α → α) :
    ∀ (l : List α) (u : α), l.find? p = some u → f u ∈ updateFirst p f l := by
  intro l
  induction l with
  | nil => intro u h; simp at h
  | cons a l ih =>
    intro u h
    by_cases hp : p a
    · rw [List.find?_cons_of_pos _ hp, Option.some_inj] at h
      subst h
      rw [updateFirst, if_pos hp]
      exact List.mem_cons_self _ _
    · rw [List.find?_cons_of_neg _ hp] at h
      rw [updateFirst, if_neg hp]
      exact List.mem_cons_of_mem a (ih u h)

theorem mem_eraseP_of_not {α : Type} (p : α → Bool) (x : α) (hx : p x = false) :
    ∀ l : List α, x ∈ l → x ∈ l.eraseP p := by
  intro l
  induction l with
  | nil => intro h; simp at h
  | cons a l ih =>
    intro h
    by_cases hp : p a
    · rw [List.eraseP_cons_of_pos hp]
      rcases List.mem_cons.mp h with rfl | h
      · rw [hp] at hx; cases hx
      · exact h
    · rw [List.eraseP_cons_of_neg hp]
      rcases List.mem_cons.mp h with rfl | h
      · exact List.mem_cons_self x _
      · exact List.mem_cons_of_mem a (ih h)

theorem applyUpdate_frame (b : TxBody) (t t' : Transaction)
    (h : t' = t ∨ t' = applyUpdate b t) :
    t'.id = t.id ∧ t'.userId = t.userId
    ∧ (b.type = none → t'.type = t.type)
    ∧ (b.amount = none → t'.amount = t.amount)
    ∧ (b.category = none → t'.category = t.category)
    ∧ (b.description = none → t'.description = t.description)
    ∧ (b.tags = none → t'.tags = t.tags)
    ∧ (b.isRecurring = none → t'.isRecurring = t.isRecurring)
    ∧ (b.recurringInterval = none → t'.recurringInterval = t.recurringInterval)
    ∧ (b.date = none → t'.date = t.date) := by
  rcases h with rfl | rfl
  · exact ⟨rfl, rfl, fun _ => rfl, fun _ => rfl, fun _ => rfl, fun _ => rfl, fun _ => rfl,
      fun _ => rfl, fun _ => rfl, fun _ => rfl⟩
  · refine ⟨rfl, rfl, ?_, ?_, ?_, ?_, ?_, ?_, ?_, ?_⟩ <;>
      (intro h; simp [applyUpdate, h])

theorem totalPages_zero {len limit : Nat} (hl : 0 < limit)
    (h : (len + limit - 1) / limit = 0) : len = 0 := by
  have := (Nat.div_eq_zero_iff hl).mp h
  omega

theorem totalPages_succ {len limit k : Nat} (hl : 0 < limit)
    (h : (len + limit - 1) / limit = k + 1) : (len - limit + limit - 1) / limit = k := by
  by_cases hle : len ≤ limit
  · have hlen0 : len ≠ 0 := by
      intro h0
      rw [h0] at h
      have : (0 + limit - 1) / limit = 0 := Nat.div_eq_of_lt (by omega)
      omega
    have h1 : len - limit = 0 := by omega
    have h2 : (len + limit - 1) / limit < 2 := Nat.div_lt_of_lt_mul (by omega)
    have h3 : (limit - 1) / limit = 0 := Nat.div_eq_of_lt (by omega)
    rw [h1]
    simp only [Nat.zero_add]
    omega
  · have e2 : len + limit - 1 = (len - 1) + limit := by omega
    rw [e2, Nat.add_div_right _ hl] at h
    have e1 : len - limit + limit - 1 = len - 1 := by omega
    rw [e1]
    omega

theorem pages_flatten {α : Type} (limit : Nat) (hl : 0 < limit) :
    ∀ (k : Nat) (l : List α), (l.length + limit - 1) / limit = k →
      ((List.range k).map (fun i => (l.drop (i * limit)).take limit)).flatten = l := by
  intro k
  induction k with
  | zero =>
    intro l h
    rw [List.length_eq_zero.mp (totalPages_zero hl h)]
    rfl
  | succ k ih =>
    intro l h
    have h2 : ((l.drop limit).length + limit - 1) / limit = k := by
      rw [List.length_drop]
      exact totalPages_succ hl h
    have h3 := ih (l.drop limit) h2
    have hcomp : ((fun i => (l.drop (i * limit)).take limit) ∘ Nat.succ)
        = fun i => ((l.drop limit).drop (i * limit)).take limit := by
      funext i
      simp only [Function.comp_apply]
      rw [List.drop_drop]
      have harg : Nat.succ i * limit = limit + i * limit := by
        rw [Nat.succ_mul, Nat.add_comm]
      rw [harg]
    rw [List.range_succ_eq_map, List.map_cons, List.flatten_cons, List.map_map, hcomp, h3]
    simp [List.take_append_drop]

theorem filter_project {α : Type} (p g : α → Bool) (h : ∀ a, g a = true → p a = true) :
    ∀ l : List α, (l.filter p).filter g = l.filter g := by
  intro l
  induction l with
  | nil => rfl
  | cons a l ih =>
    by_cases hp : p a = true
    · rw [List.filter_cons, if_pos hp, List.filter_cons, List.filter_cons, ih]
    · have hg : g a = false := by
        cases hga : g a with
        | true => exact absurd (h a hga) hp
        | false => rfl
      rw [List.filter_cons, if_neg hp, List.filter_cons, if_neg (by rw [hg]; exact Bool.false_ne_true), ih]

/-! ## Claims -/

/-- C1: for every user and time window, `getTransactionStats` reports
`netAmount = totalIncome - totalExpenses` where the totals are the sums of
the income respectively expense amounts matched in the window, and an empty
window yields all-zero statistics with success rather than an error. -/
theorem C1_stats_net_amount (dm : DateModel) (period : String) (now : Int) (uid : String)
    (store : Store) :
    (getTransactionStats dm period now uid store).success = true
    ∧ (getTransactionStats dm period now uid store).stats.netAmount =
        (((statsMatch dm period now uid store).filter (fun t => t.type == "income")).map
            (fun t => t.amount)).sum
          - (((statsMatch dm period now uid store).filter (fun t => t.type == "expense")).map
            (fun t => t.amount)).sum
    ∧ (statsMatch dm period now uid store = [] →
        (getTransactionStats dm period now uid store).stats = zeroStats) := by
  cases h : statsMatch dm period now uid store with
  | nil =>
    refine ⟨?_, ?_, fun _ => ?_⟩ <;> simp [getTransactionStats, h, zeroStats]
  | cons t ts =>
    refine ⟨?_, ?_, fun hc => by simp [h] at hc⟩
    · simp [getTransactionStats, h]
    · simp only [getTransactionStats, h]
      rw [condAmountSum_eq_filter, condAmountSum_eq_filter]

theorem C1_stats_net_amount_witness :
    statsMatch dmTrivial "all" 0 "alice" [] = []
    ∧ (getTransactionStats dmTrivial "all" 0 "alice" []).stats = zeroStats :=
  ⟨rfl, (C1_stats_net_amount dmTrivial "all" 0 "alice" []).2.2 rfl⟩

/-- C5: a token whose verified payload lacks the `type: 'refresh'` claim —
in particular an access token, which carries no type claim — is rejected by
`refreshToken` with a 401 and no new token pair, even though its signature
verifies and it is unexpired. -/
theorem C5_refresh_rejects_wrong_type (env : Env) (users : List UserRec) (now : Int)
    (tok : Jwt) (p : JwtPayload)
    (hver : jwtVerify tok (refreshKey env) now = .ok p)
    (hty : p.type ≠ some "refresh") :
    refreshToken env users now (some tok)
      = { status := 401, success := false, message := "Invalid token type",
          token := none, refreshToken := none }
    ∧ ∀ uid t0, (generateToken uid env t0).payloadType = none := by
  refine ⟨?_, fun uid t0 => rfl⟩
  simp [refreshToken, hver, hty]

theorem C5_refresh_rejects_wrong_type_witness :
    refreshToken { jwtSecret := "s", jwtRefreshSecret := none, jwtExpiresIn := 100 } [] 1
        (some (generateToken "u1" { jwtSecret := "s", jwtRefreshSecret := none, jwtExpiresIn := 100 } 0))
      = { status := 401, success := false, message := "Invalid token type",
          token := none, refreshToken := none } :=
  (C5_refresh_rejects_wrong_type
    { jwtSecret := "s", jwtRefreshSecret := none, jwtExpiresIn := 100 } [] 1
    (generateToken "u1" { jwtSecret := "s", jwtRefreshSecret := none, jwtExpiresIn := 100 } 0)
    { id := "u1", type := none } (by rfl) (by decide)).1

/-- C2: for page and limit at least 1, `getTransactions` answers the slice
of the sorted filtered list that skips `(page-1)*limit` items and takes at
most `limit`, with the total count and `totalPages = ceil(total/limit)`;
and the concatenation of the pages `1..totalPages` is the whole sorted
filtered list — every element exactly once, no duplicates or omissions. -/
theorem C2_pagination (uid : String) (q : Query) (store : Store) (p limit : Nat)
    (hp : q.page = some p) (hl : q.limit = some limit) (hp1 : 1 ≤ p) (hl1 : 1 ≤ limit) :
    (getTransactions uid q store).transactions
      = ((filteredSorted uid q store).drop ((p - 1) * limit)).take limit
    ∧ (getTransactions uid q store).pagination.totalItems
      = (filteredSorted uid q store).length
    ∧ (getTransactions uid q store).pagination.totalPages
      = ((filteredSorted uid q store).length + limit - 1) / limit
    ∧ ((List.range ((getTransactions uid q store).pagination.totalPages)).map
          (fun i => (getTransactions uid { q with page := some (i + 1) } store).transactions)).flatten
      = filteredSorted uid q store := by
  refine ⟨by simp [getTransactions, hp, hl], by simp [getTransactions], by simp [getTransactions, hl], ?_⟩
  have hTP : (getTransactions uid q store).pagination.totalPages
      = ((filteredSorted uid q store).length + limit - 1) / limit := by
    simp [getTransactions, hl]
  have hpage : ∀ i : Nat,
      (getTransactions uid { q with page := some (i + 1) } store).transactions
        = ((filteredSorted uid q store).drop (i * limit)).take limit := by
    intro i
    simp only [getTransactions, hl]
    rfl
  rw [hTP]
  simp only [hpage]
  exact pages_flatten limit hl1 _ (filteredSorted uid q store) rfl

/-- A concrete query for closed evaluations: first page, one per page. -/
def qDemo : Query :=
  { page := some 1, limit := some 1, type := none, category := none, startDate := none,
    endDate := none, minAmount := none, maxAmount := none, search := none,
    sortBy := none, sortOrder := none }

/-- A concrete two-element store for closed evaluations. -/
def storeDemo : Store :=
  [ { id := "t1", userId := "alice", type := "income", amount := 5, category := "Pay",
      description := none, date := 10, tags := [], isRecurring := false,
      recurringInterval := "monthly", attachments := [] }
  , { id := "t2", userId := "alice", type := "expense", amount := 2, category := "Food",
      description := none, date := 20, tags := [], isRecurring := false,
      recurringInterval := "monthly", attachments := [] } ]

theorem C2_pagination_witness :
    (getTransactions "alice" qDemo storeDemo).transactions
      = ((filteredSorted "alice" qDemo storeDemo).drop ((1 - 1) * 1)).take 1
    ∧ (getTransactions "alice" qDemo storeDemo).pagination.totalItems
      = (filteredSorted "alice" qDemo storeDemo).length
    ∧ (getTransactions "alice" qDemo storeDemo).pagination.totalPages
      = ((filteredSorted "alice" qDemo storeDemo).length + 1 - 1) / 1
    ∧ ((List.range ((getTransactions "alice" qDemo storeDemo).pagination.totalPages)).map
          (fun i => (getTransactions "alice" { qDemo with page := some (i + 1) } storeDemo).transactions)).flatten
      = filteredSorted "alice" qDemo storeDemo :=
  C2_pagination "alice" qDemo storeDemo 1 1 rfl rfl (by decide) (by decide)

/-- C3: ownership isolation — with A as the authenticated caller and tx a
transaction of a distinct user B: the listing never contains tx; a by-id
read never returns tx (whatever id A supplies, tx.id included); the
statistics and the category aggregation answer exactly what they answer on
the A-owned projection of the store, so they are insensitive to tx; and
update, delete and bulk delete leave tx in the store untouched. -/
theorem C3_ownership_isolation (A B : String) (tx : Transaction) (store : Store)
    (hAB : A ≠ B) (hB : tx.userId = B) (hmem : tx ∈ store) :
    (∀ q : Query, tx ∉ (getTransactions A q store).transactions)
    ∧ (∀ (id : String) (t' : Transaction),
        (getTransactionById A id store).transaction = some t' → t'.userId = A ∧ t' ≠ tx)
    ∧ (∀ (dm : DateModel) (period : String) (now : Int),
        getTransactionStats dm period now A (store.filter (fun t => t.userId == A))
          = getTransactionStats dm period now A store)
    ∧ getTransactionCategories A (store.filter (fun t => t.userId == A))
        = getTransactionCategories A store
    ∧ (∀ (id : String) (b : TxBody), tx ∈ (updateTransaction A id b store).2)
    ∧ (∀ id : String, tx ∈ (deleteTransaction A id store).2)
    ∧ (∀ ids : Option (List String), tx ∈ (bulkDeleteTransactions A ids store).2) := by
  have hAne : tx.userId ≠ A := by rw [hB]; exact fun h => hAB h.symm
  have howned : ∀ id, ownedBy A id tx = false := by
    intro id
    have : (tx.userId == A) = false := beq_eq_false_iff_ne.mpr hAne
    rw [ownedBy, this, Bool.and_false]
  refine ⟨?_, ?_, ?_, ?_, ?_, ?_, ?_⟩
  · intro q hin
    simp only [getTransactions] at hin
    have h1 : tx ∈ filteredSorted A q store :=
      List.mem_of_mem_drop (List.mem_of_mem_take hin)
    have h2 : tx ∈ store.filter (matchesFilter A q) := by
      simpa [filteredSorted, List.mem_insertionSort] using h1
    have h3 : matchesFilter A q tx = true := (List.mem_filter.mp h2).2
    simp only [matchesFilter, Bool.and_eq_true, beq_iff_eq] at h3
    exact hAne h3.1.1.1.1.1.1.1
  · intro id t' h
    cases hf : store.find? (ownedBy A id) with
    | none => rw [getTransactionById, hf] at h; cases h
    | some u =>
      rw [getTransactionById, hf, Option.some_inj] at h
      subst h
      have hu := List.find?_some hf
      rw [ownedBy, Bool.and_eq_true, beq_iff_eq, beq_iff_eq] at hu
      exact ⟨hu.2, fun he => hAne (he ▸ hu.2)⟩
  · intro dm period now
    have hstats : statsMatch dm period now A (store.filter (fun t => t.userId == A))
        = statsMatch dm period now A store := by
      unfold statsMatch
      exact filter_project _ _ (fun a ha => by
        rw [Bool.and_eq_true] at ha; exact ha.1) store
    have hmonth :
        (store.filter (fun t => t.userId == A)).filter
            (fun t => t.userId == A && decide (dm.oneYearBefore now ≤ t.date))
          = store.filter (fun t => t.userId == A && decide (dm.oneYearBefore now ≤ t.date)) :=
      filter_project _ _ (fun a ha => by rw [Bool.and_eq_true] at ha; exact ha.1) store
    unfold getTransactionStats
    rw [hstats]
    cases statsMatch dm period now A store with
    | nil => rfl
    | cons t ts =>
      unfold monthlyStatsOf
      rw [hmonth]
  · unfold getTransactionCategories
    rw [filter_project (fun t => t.userId == A) (fun t => t.userId == A) (fun a ha => ha) store]
  · intro id b
    unfold updateTransaction
    cases store.find? (ownedBy A id) with
    | none => exact hmem
    | some t =>
      by_cases hv : validSuppliedPaths b = true
      · simp only [hv, if_true]
        exact mem_updateFirst_of_not _ _ tx (howned id) store hmem
      · simp only [hv, if_false]
        exact hmem
  · intro id
    unfold deleteTransaction
    cases store.find? (ownedBy A id) with
    | none => exact hmem
    | some t => exact mem_eraseP_of_not _ tx (howned id) store hmem
  · intro ids
    unfold bulkDeleteTransactions
    cases ids with
    | none => exact hmem
    | some l =>
      by_cases hemp : l.isEmpty = true
      · simp only [hemp, if_true]
        exact hmem
      · simp only [hemp, if_false]
        refine List.mem_filter.mpr ⟨hmem, ?_⟩
        have : (tx.userId == A) = false := beq_eq_false_iff_ne.mpr hAne
        rw [this, Bool.and_false]
        rfl

/-- The transaction of user bob used in the C3 witness. -/
def txBobDemo : Transaction :=
  { id := "b1", userId := "bob", type := "income", amount := 9, category := "Pay",
    description := none, date := 3, tags := [], isRecurring := false,
    recurringInterval := "monthly", attachments := [] }

theorem C3_ownership_isolation_witness :
    txBobDemo ∉ (getTransactions "alice" qDemo [txBobDemo]).transactions
    ∧ txBobDemo ∈ (bulkDeleteTransactions "alice" (some ["b1"]) [txBobDemo]).2
    ∧ txBobDemo ∈ (deleteTransaction "alice" "b1" [txBobDemo]).2 := by
  have h := C3_ownership_isolation "alice" "bob" txBobDemo [txBobDemo] (by decide) rfl
    (List.mem_singleton.mpr rfl)
  exact ⟨h.1 qDemo, h.2.2.2.2.2.2 (some ["b1"]), h.2.2.2.2.2.1 "b1"⟩

/-- A concrete hash instantiation for closed evaluations. -/
def hashDemo : String → String := fun s => String.append s "#h"

/-- A concrete user store for closed evaluations. -/
def usersDemo : List UserRec :=
  [{ id := "u1", name := "A", email := "a@x.com", password := "pw", isActive := true,
     passwordResetToken := none, passwordResetExpires := none }]

/-- C6 counterexample: in the development environment, `forgotPassword`
answers differently for an existing and for a non-existent email (the raw
reset token is even included), so the two success responses are not
identical as the claim states for every pair of requests. -/
theorem C6_forgot_password_counterexample :
    (forgotPassword hashDemo "development" "tok" 0 usersDemo "a@x.com").1
      ≠ (forgotPassword hashDemo "development" "tok" 0 usersDemo "b@x.com").1 := by
  decide

/-- C6 (amended): outside the development environment the `forgotPassword`
success responses are identical for any two emails; in every environment no
reset token is stored when no active user has the email, and when one does,
what is stored is exactly the hash of the random token with a 10-minute
expiry. -/
theorem C6_forgot_password_uniform (hash : String → String) (env rand : String) (now : Int)
    (users : List UserRec) :
    (∀ e₁ e₂ : String, env ≠ "development" →
        (forgotPassword hash env rand now users e₁).1
          = (forgotPassword hash env rand now users e₂).1)
    ∧ (∀ e : String, users.find? (fun u => u.email == e && u.isActive) = none →
        (forgotPassword hash env rand now users e).2 = users
        ∧ (forgotPassword hash env rand now users e).1.resetToken = none)
    ∧ (∀ (e : String) (u : UserRec),
        users.find? (fun u => u.email == e && u.isActive) = some u →
        ∃ u' ∈ (forgotPassword hash env rand now users e).2,
          u'.id = u.id ∧ u'.passwordResetToken = some (hash rand)
          ∧ u'.passwordResetExpires = some (now + 10 * 60 * 1000)) := by
  have hdev : ∀ e, env ≠ "development" →
      (forgotPassword hash env rand now users e).1
        = { status := 200, success := true, message := forgotUniformMessage, resetToken := none } := by
    intro e he
    have he' : (env == "development") = false := by
      simpa using he
    unfold forgotPassword
    cases users.find? (fun u => u.email == e && u.isActive) with
    | none => rfl
    | some u => simp [he']
  refine ⟨fun e₁ e₂ he => by rw [hdev e₁ he, hdev e₂ he], ?_, ?_⟩
  · intro e hnone
    constructor <;> simp [forgotPassword, hnone]
  · intro e u hsome
    refine ⟨{ u with passwordResetToken := some (hash rand), passwordResetExpires := some (now + 10 * 60 * 1000) }, ?_, rfl, rfl, rfl⟩
    have hm := find?_updateFirst_mem (fun v => v.email == e && v.isActive)
      (fun v => { v with passwordResetToken := some (hash rand), passwordResetExpires := some (now + 10 * 60 * 1000) })
      users u hsome
    unfold forgotPassword
    rw [hsome]
    by_cases hd : (env == "development") = true <;> simp [hd] <;> exact hm

theorem C6_forgot_password_uniform_witness :
    (forgotPassword hashDemo "production" "tok" 0 usersDemo "a@x.com").1
      = (forgotPassword hashDemo "production" "tok" 0 usersDemo "b@x.com").1
    ∧ (forgotPassword hashDemo "production" "tok" 0 usersDemo "b@x.com").2 = usersDemo
    ∧ ∃ u' ∈ (forgotPassword hashDemo "production" "tok" 0 usersDemo "a@x.com").2,
        u'.id = "u1" ∧ u'.passwordResetToken = some (hashDemo "tok")
        ∧ u'.passwordResetExpires = some 600000 := by
  have h := C6_forgot_password_uniform hashDemo "production" "tok" 0 usersDemo
  refine ⟨h.1 "a@x.com" "b@x.com" (by decide), (h.2.1 "b@x.com" (by decide)).1, ?_⟩
  rcases h.2.2 "a@x.com"
      { id := "u1", name := "A", email := "a@x.com", password := "pw", isActive := true,
        passwordResetToken := none, passwordResetExpires := none } (by decide) with
    ⟨u', hu', hid, htok, hexp⟩
  exact ⟨u', hu', hid, htok, hexp⟩

/-- C8: the create pipeline (spec-modelled validation middleware followed by
`createTransaction`) rejects a supplied non-positive amount with a 400
ValidationError persisting nothing, and whenever it persists a document the
owner of that document is the authenticated caller. -/
theorem C8_create_transaction (uid newId : String) (now : Int) (b : TxBody) (store : Store) :
    (∀ a : ℚ, b.amount = some a → a ≤ 0 →
        createTransactionEndpoint uid newId now b store
          = ({ status := 400, success := false, message := "Validation failed",
               transaction := none }, store))
    ∧ ((createTransactionEndpoint uid newId now b store).2 = store
        ∨ ∃ t : Transaction,
            (createTransactionEndpoint uid newId now b store).2 = store ++ [t]
            ∧ t.userId = uid) := by
  constructor
  · intro a ha hle
    have h0 : ¬(0 < a) := not_lt.mpr hle
    have hmw : validateTransactionMW b = ["Amount must be greater than 0"] := by
      simp [validateTransactionMW, ha, h0]
    simp [createTransactionEndpoint, hmw]
  · unfold createTransactionEndpoint
    cases hmw : validateTransactionMW b with
    | cons e es => exact Or.inl rfl
    | nil =>
      unfold createTransaction
      by_cases hs : schemaValidCreate b = true
      · exact Or.inr ⟨mkTransaction newId uid now b, by simp [hs], rfl⟩
      · simp [hs]

theorem C8_create_transaction_witness :
    createTransactionEndpoint "alice" "t9" 0
        { type := some "expense", amount := some (-1), category := some "Food",
          description := none, tags := none, isRecurring := none,
          recurringInterval := none, date := none } []
      = ({ status := 400, success := false, message := "Validation failed",
           transaction := none }, []) :=
  (C8_create_transaction "alice" "t9" 0
    { type := some "expense", amount := some (-1), category := some "Food",
      description := none, tags := none, isRecurring := none,
      recurringInterval := none, date := none } []).1 (-1) rfl (by norm_num)

/-- C9: `updateTransaction` changes only the supplied body fields of the
matched owned document — every unsupplied field, and always the owner and
the id, retain their previous values, and unmatched documents are returned
verbatim — and when no owned document matches it fails with a 404
NotFoundError leaving the store unchanged. -/
theorem C9_update_transaction_frame (uid id : String) (b : TxBody) (store : Store) :
    (store.find? (ownedBy uid id) = none →
        updateTransaction uid id b store
          = ({ status := 404, success := false, message := "Transaction not found",
               transaction := none }, store))
    ∧ ((updateTransaction uid id b store).2).length = store.length
    ∧ ∀ t' ∈ (updateTransaction uid id b store).2, ∃ t ∈ store,
        t'.id = t.id ∧ t'.userId = t.userId
        ∧ (¬(t.id = id ∧ t.userId = uid) → t' = t)
        ∧ (b.type = none → t'.type = t.type)
        ∧ (b.amount = none → t'.amount = t.amount)
        ∧ (b.category = none → t'.category = t.category)
        ∧ (b.description = none → t'.description = t.description)
        ∧ (b.tags = none → t'.tags = t.tags)
        ∧ (b.isRecurring = none → t'.isRecurring = t.isRecurring)
        ∧ (b.recurringInterval = none → t'.recurringInterval = t.recurringInterval)
        ∧ (b.date = none → t'.date = t.date) := by
  have hsecond : ∀ (snd : Store), snd = store ∨ snd = updateFirst (ownedBy uid id) (applyUpdate b) store →
      ∀ t' ∈ snd, ∃ t ∈ store,
        t'.id = t.id ∧ t'.userId = t.userId
        ∧ (¬(t.id = id ∧ t.userId = uid) → t' = t)
        ∧ (b.type = none → t'.type = t.type)
        ∧ (b.amount = none → t'.amount = t.amount)
        ∧ (b.category = none → t'.category = t.category)
        ∧ (b.description = none → t'.description = t.description)
        ∧ (b.tags = none → t'.tags = t.tags)
        ∧ (b.isRecurring = none → t'.isRecurring = t.isRecurring)
        ∧ (b.recurringInterval = none → t'.recurringInterval = t.recurringInterval)
        ∧ (b.date = none → t'.date = t.date) := by
    rintro snd (rfl | rfl) t' ht'
    · rcases applyUpdate_frame b t' t' (Or.inl rfl) with hfr
      exact ⟨t', ht', hfr.1, hfr.2.1, fun _ => rfl, hfr.2.2.1, hfr.2.2.2.1, hfr.2.2.2.2.1,
        hfr.2.2.2.2.2.1, hfr.2.2.2.2.2.2.1, hfr.2.2.2.2.2.2.2.1, hfr.2.2.2.2.2.2.2.2.1,
        hfr.2.2.2.2.2.2.2.2.2⟩
    · rcases mem_updateFirst (ownedBy uid id) (applyUpdate b) store t' ht' with ⟨t, ht, hc⟩
      have hcase : t' = t ∨ t' = applyUpdate b t := by
        rcases hc with h | ⟨_, h⟩
        · exact Or.inl h
        · exact Or.inr h
      rcases applyUpdate_frame b t t' hcase with hfr
      refine ⟨t, ht, hfr.1, hfr.2.1, ?_, hfr.2.2.1, hfr.2.2.2.1, hfr.2.2.2.2.1,
        hfr.2.2.2.2.2.1, hfr.2.2.2.2.2.2.1, hfr.2.2.2.2.2.2.2.1, hfr.2.2.2.2.2.2.2.2.1,
        hfr.2.2.2.2.2.2.2.2.2⟩
      intro hnot
      rcases hc with h | ⟨hp, _⟩
      · exact h
      · exfalso
        apply hnot
        have := hp
        simp only [ownedBy, Bool.and_eq_true, beq_iff_eq] at this
        exact this
  refine ⟨fun h => by simp [updateTransaction, h], ?_, ?_⟩
  · unfold updateTransaction
    cases hf : store.find? (ownedBy uid id) with
    | none => rfl
    | some t =>
      by_cases hv : validSuppliedPaths b = true <;>
        simp [hv, length_updateFirst]
  · unfold updateTransaction
    cases hf : store.find? (ownedBy uid id) with
    | none => exact hsecond store (Or.inl rfl)
    | some t =>
      by_cases hv : validSuppliedPaths b = true
      · simpa [hv] using hsecond (updateFirst (ownedBy uid id) (applyUpdate b) store) (Or.inr rfl)
      · simpa [hv] using hsecond store (Or.inl rfl)

theorem C9_update_transaction_frame_witness :
    updateTransaction "alice" "zzz"
        { type := none, amount := some 7, category := none, description := none,
          tags := none, isRecurring := none, recurringInterval := none, date := none } []
      = ({ status := 404, success := false, message := "Transaction not found",
           transaction := none }, []) :=
  (C9_update_transaction_frame "alice" "zzz"
    { type := none, amount := some 7, category := none, description := none,
      tags := none, isRecurring := none, recurringInterval := none, date := none } []).1 rfl

/-- The two-transaction store of the bulk-delete example: idA owned by the
caller alice, idB owned by bob. -/
def c4Store : Store :=
  [ { id := "idA", userId := "alice", type := "expense", amount := 4, category := "Food",
      description := none, date := 1, tags := [], isRecurring := false,
      recurringInterval := "monthly", attachments := [] }
  , { id := "idB", userId := "bob", type := "expense", amount := 6, category := "Food",
      description := none, date := 2, tags := [], isRecurring := false,
      recurringInterval := "monthly", attachments := [] } ]

/-- C4 (code bug): `router.delete('/:id')` is registered before
`router.delete('/bulk')`, so Express dispatches `DELETE /bulk` to the
single-delete handler with `id = "bulk"` — which deletes nothing and
answers an error (404 here; a CastError-driven 500 with real ObjectIds) —
and `bulkDeleteTransactions` is unreachable on that route.  The handler
itself, run directly, does behave as the claim describes: it deletes
exactly the owned listed transaction, reports `deletedCount` 1 of 2 listed
ids, and rejects an absent or empty id list with a 400. -/
theorem C4_bulk_route_shadowed :
    dispatch "DELETE" ["bulk"] = some (.hDeleteOne, ["bulk"])
    ∧ deleteTransaction "alice" "bulk" c4Store
        = ({ status := 404, success := false, message := "Transaction not found",
             transaction := none }, c4Store)
    ∧ (bulkDeleteTransactions "alice" (some ["idA", "idB"]) c4Store).1.deletedCount = 1
    ∧ (bulkDeleteTransactions "alice" (some ["idA", "idB"]) c4Store).1.message
        = "1 transactions deleted successfully"
    ∧ (bulkDeleteTransactions "alice" (some ["idA", "idB"]) c4Store).2
        = [{ id := "idB", userId := "bob", type := "expense", amount := 6, category := "Food",
             description := none, date := 2, tags := [], isRecurring := false,
             recurringInterval := "monthly", attachments := [] }]
    ∧ (bulkDeleteTransactions "alice" none c4Store).1.status = 400
    ∧ (bulkDeleteTransactions "alice" (some []) c4Store).1.status = 400 := by
  decide

/-- The network of the C7 scenario: the refresh endpoint always succeeds
with a fresh pair, every other request always answers 401. -/
def serverAlways401 : Client.Server := fun req =>
  if req.url == "http://localhost:5000/api/auth/refresh-token" then
    { ok := true, status := 200, url := req.url, dataToken := some "t2",
      dataRefreshToken := some "r2", body := none }
  else
    { ok := false, status := 401, url := req.url, dataToken := none,
      dataRefreshToken := none, body := some "errorBody" }

/-- The stored session when the C7 scenario starts. -/
def storageDemo : Client.LocalStorage :=
  { token := some "t1", refreshToken := some "r1", user := some "u" }

/-- The original request of the C7 scenario. -/
def reqDemo : Client.JsRequest :=
  { url := "http://localhost:5000/api/transactions", method := "POST", body := some "payload" }

/-- C7 (code bug): on a 401 to a POST the client does not refresh exactly
once and replay once with the same method and body — within fuel 3 it makes
three refresh attempts (one per 401, without bound), each replay is sent
with method GET (it reads the nonexistent `response.method`, so fetch
defaults) and with the 401 response body instead of the original request
body, and the session state is never cleared while the refresh endpoint
keeps succeeding. -/
theorem C7_client_retry_diverges :
    reqDemo.method = "POST"
    ∧ reqDemo.body = some "payload"
    ∧ (Client.apiCall serverAlways401 storageDemo reqDemo 3).refreshCount = 3
    ∧ (Client.apiCall serverAlways401 storageDemo reqDemo 3).retries.head?
        = some { url := "http://localhost:5000/api/transactions", method := "GET",
                 body := some "errorBody" }
    ∧ (Client.apiCall serverAlways401 storageDemo reqDemo 3).storage ≠ Client.clearedStorage := by
  decide

/-- The transaction dated exactly at the C10 request instant. -/
def c10Tx : Transaction :=
  { id := "t1", userId := "alice", type := "income", amount := 5, category := "Pay",
    description := none, date := 100, tags := [], isRecurring := false,
    recurringInterval := "monthly", attachments := [] }

/-- C10 counterexample: for an unknown period the window is
`date >= now` — with `$gte`, not a strict bound — so a user whose only
transaction is dated exactly at the request instant (hence at or before it)
gets `totalTransactions = 1`, not the all-zero statistics the claim
states. -/
theorem C10_unknown_period_counterexample :
    (∀ t ∈ ([c10Tx] : Store), t.userId = "alice" → t.date ≤ 100)
    ∧ (getTransactionStats dmTrivial "bogus" 100 "alice" [c10Tx]).stats.totalTransactions = 1 := by
  decide

/-- C10 (amended): a `getTransactionStats` request whose period is none of
today/week/month/year/all succeeds with the window start equal to the
current instant, so the overall statistics are all zeroes for any user
whose transactions are all dated strictly before the request time. -/
theorem C10_unknown_period_window (dm : DateModel) (now : Int) (uid period : String)
    (store : Store)
    (hper : period ∉ (["today", "week", "month", "year", "all"] : List String))
    (hdates : ∀ t ∈ store, t.userId = uid → t.date < now) :
    periodStart dm period now = some now
    ∧ (getTransactionStats dm period now uid store).stats = zeroStats
    ∧ (getTransactionStats dm period now uid store).success = true := by
  simp only [List.mem_cons, List.mem_singleton, not_or] at hper
  obtain ⟨h1, h2, h3, h4, h5⟩ := hper
  have b1 : (period == "today") = false := beq_eq_false_iff_ne.mpr h1
  have b2 : (period == "week") = false := beq_eq_false_iff_ne.mpr h2
  have b3 : (period == "month") = false := beq_eq_false_iff_ne.mpr h3
  have b4 : (period == "year") = false := beq_eq_false_iff_ne.mpr h4
  have b5 : (period == "all") = false := beq_eq_false_iff_ne.mpr h5.1
  have hps : periodStart dm period now = some now := by
    simp [periodStart, b1, b2, b3, b4, b5]
  have hempty : statsMatch dm period now uid store = [] := by
    have hsm : statsMatch dm period now uid store
        = store.filter (fun t => t.userId == uid && decide (now ≤ t.date)) := by
      unfold statsMatch
      rw [hps]
    rw [hsm, List.filter_eq_nil_iff]
    intro t ht hp
    rw [Bool.and_eq_true, beq_iff_eq, decide_eq_true_eq] at hp
    exact absurd hp.2 (not_le.mpr (hdates t ht hp.1))
  refine ⟨hps, ?_, ?_⟩ <;> simp [getTransactionStats, hempty]

/-- The strictly-earlier transaction of the C10 witness. -/
def c10TxOld : Transaction :=
  { id := "t0", userId := "alice", type := "income", amount := 5, category := "Pay",
    description := none, date := 99, tags := [], isRecurring := false,
    recurringInterval := "monthly", attachments := [] }

theorem C10_unknown_period_window_witness :
    periodStart dmTrivial "bogus" 100 = some 100
    ∧ (getTransactionStats dmTrivial "bogus" 100 "alice" [c10TxOld]).stats = zeroStats
    ∧ (getTransactionStats dmTrivial "bogus" 100 "alice" [c10TxOld]).success = true :=
  C10_unknown_period_window dmTrivial 100 "alice" "bogus" [c10TxOld] (by decide)
    (by decide)

end TrackIt
